import Mathlib

/-!
# astro-cli: configuration resolution and deployment-user operations

A shallow embedding of `config/config.go` (package `config`) together with a
model of the collaborators it calls (Go's `path/filepath`, `os`, the `viper`
store, `pkg/fileutil`), followed by theorems about `CreateConfig`, `initHome`,
`initProject`, `CreateProjectConfig`, `ProjectConfigExists` and `ProjectRoot`.

Conventions.
* A Go `error` is represented by its message; `nil` is `none`.
* Package-level variables (`viperHome`, `viperProject`) and the process
  environment (file system, standard output) are threaded explicitly.
* The outcome of every operating-system call that Go reports through an
  `error` result is decided by a fault table of the environment, so that every
  theorem quantified over environments covers failing calls as well.
-/

namespace AstroCli

/-! ## Go errors -/

/-- A Go error value, identified with the text of its `Error()` method. -/
abbrev GoError := String

/-- The function `errors.Wrap(err, message)` of `github.com/pkg/errors`, for a
non-nil `err`: the message of the result is `message: cause`. -/
def errorsWrap (err : GoError) (message : String) : GoError :=
  message ++ ": " ++ err

/-! ## `path/filepath` on Unix -/

/-- Split a path at every separator `/` (as `strings.Split(path, "/")`). -/
def splitSep : List Char → List (List Char)
  | [] => [[]]
  | c :: cs =>
    match splitSep cs with
    | [] => [[]]
    | e :: es => if c = '/' then [] :: e :: es else (c :: e) :: es

/-- One iteration of the loop of `filepath.Clean`, on a whole path element.
`out` holds the elements written so far, last one first. -/
def cleanStep (rooted : Bool) (out : List (List Char)) (el : List Char) :
    List (List Char) :=
  if el = [] then out
  else if el = ['.'] then out
  else if el = ['.', '.'] then
    match out with
    | top :: rest =>
      if top = ['.', '.'] then (if rooted then out else el :: out) else rest
    | [] => if rooted then out else [el]
  else el :: out

/-- Join path elements with the separator. -/
def joinSep : List (List Char) → List Char
  | [] => []
  | [e] => e
  | e :: es => e ++ '/' :: joinSep es

/-- The function `filepath.Clean` on a list of characters (Unix: no volume
name, separator `/`). -/
def cleanChars (path : List Char) : List Char :=
  match path with
  | [] => ['.']
  | c :: _ =>
    let rooted : Bool := decide (c = '/')
    let body := joinSep ((splitSep path).foldl (cleanStep rooted) []).reverse
    if rooted then '/' :: body
    else if body = [] then ['.'] else body

/-- The function `filepath.Clean`. -/
def filepathClean (path : String) : String :=
  String.mk (cleanChars path.data)

/-- The function `filepath.Dir`: everything up to the last separator, cleaned. -/
def filepathDir (path : String) : String :=
  String.mk (cleanChars (path.data.reverse.dropWhile (fun c => c ≠ '/')).reverse)

/-- The two-argument calls of `filepath.Join` made by the package: leading
empty elements are dropped, the rest is joined with `/` and cleaned. -/
def filepathJoin (a b : String) : String :=
  if a = "" then
    if b = "" then "" else filepathClean b
  else filepathClean (a ++ "/" ++ b)

/-! ## The file system and the calls made on it -/

/-- Look a key up in an association list; the first binding wins. -/
def assocGet {β : Type} (k : String) : List (String × β) → Option β
  | [] => none
  | (k1, v) :: rest => if k1 = k then some v else assocGet k rest

/-- A file-system entry: a directory with its permission bits, or a regular
file with its permission bits and its content. The content of a configuration
file is the flat key/value map that the YAML text denotes (dotted paths). -/
inductive Node where
  | dir (mode : Nat)
  | file (mode : Nat) (content : List (String × String))
  deriving DecidableEq, Repr

/-- The file system: path to entry, the first binding of a path wins. -/
abbrev FileSys := List (String × Node)

/-- The calls of the package that reach the operating system. -/
inductive Call where
  | mkdirAll (path : String) (perm : Nat)
  | create (name : String)
  | chmod (name : String) (mode : Nat)
  | writeConfigAs (filename : String)
  | readInConfig (filename : String)
  deriving DecidableEq, Repr

/-- The part of the process state owned by the operating system: the file
system and the log of the calls made so far, oldest first. -/
structure World where
  fs : FileSys
  trace : List Call
  deriving DecidableEq, Repr

/-- What the package takes from its surroundings.
* `homeDir` is the result of `fileutil.GetHomeDir()`.
* `fault fs c` is the error, if any, with which the operating system answers
  call `c` in file system `fs` (permissions, ownership, full disk, ...).
* `findDirInPath fs name` is the result pair of `fileutil.FindDirInPath(name)`
  in file system `fs` for the working directory of the process. -/
structure Env where
  homeDir : String
  fault : FileSys → Call → Option GoError
  findDirInPath : FileSys → String → String × Option GoError

/-- Append a call to the log. -/
def World.log (w : World) (c : Call) : World :=
  { w with trace := w.trace ++ [c] }

/-- The function `os.MkdirAll(path, perm)`: nothing to do when `path` is a
directory already, an error when it is a file, otherwise the directory is
created with the permission bits asked for (the umask is taken to be zero and
the ancestors of `path` are not represented). -/
def osMkdirAll (env : Env) (path : String) (perm : Nat) (w : World) :
    Option GoError × World :=
  let w1 := w.log (Call.mkdirAll path perm)
  match env.fault w.fs (Call.mkdirAll path perm) with
  | some e => (some e, w1)
  | none =>
    match assocGet path w.fs with
    | some (Node.dir _) => (none, w1)
    | some (Node.file _ _) => (some ("mkdir " ++ path ++ ": not a directory"), w1)
    | none => (none, { w1 with fs := (path, Node.dir perm) :: w.fs })

/-- The function `os.Create(name)`, that is `OpenFile(name, O_RDWR|O_CREATE|O_TRUNC, 0666)`:
an existing file is truncated and keeps its mode, a new file gets mode 0666. -/
def osCreate (env : Env) (name : String) (w : World) : Option GoError × World :=
  let w1 := w.log (Call.create name)
  match env.fault w.fs (Call.create name) with
  | some e => (some e, w1)
  | none =>
    match assocGet name w.fs with
    | some (Node.dir _) => (some ("open " ++ name ++ ": is a directory"), w1)
    | some (Node.file mode _) => (none, { w1 with fs := (name, Node.file mode []) :: w.fs })
    | none => (none, { w1 with fs := (name, Node.file 0o666 []) :: w.fs })

/-- The function `os.Chmod(name, mode)`. -/
def osChmod (env : Env) (name : String) (mode : Nat) (w : World) :
    Option GoError × World :=
  let w1 := w.log (Call.chmod name mode)
  match env.fault w.fs (Call.chmod name mode) with
  | some e => (some e, w1)
  | none =>
    match assocGet name w.fs with
    | some (Node.dir _) => (none, { w1 with fs := (name, Node.dir mode) :: w.fs })
    | some (Node.file _ c) => (none, { w1 with fs := (name, Node.file mode c) :: w.fs })
    | none => (some ("chmod " ++ name ++ ": no such file or directory"), w1)

/-- Modelled from the spec: `fileutil.Exists` of `pkg/fileutil`, which is not
part of the sources at hand; it tells whether the path is present in the file
system ("creating the config file with defaults if absent"). -/
def fileutilExists (fs : FileSys) (path : String) : Bool :=
  (assocGet path fs).isSome

/-! ## The `viper` store -/

/-- The fields of a `viper.Viper` that the package touches. Keys are dotted
paths in the normal form viper keeps them in. -/
structure Viper where
  configName : String
  configType : String
  configFile : String
  defaults : List (String × String)
  config : List (String × String)
  deriving DecidableEq, Repr

namespace Viper

/-- The constructor `viper.New()`. -/
def New : Viper :=
  { configName := "", configType := "", configFile := "", defaults := [], config := [] }

/-- The method `SetConfigName`: a non-empty name is stored and the cached
configuration file is forgotten. -/
def SetConfigName (v : Viper) (name : String) : Viper :=
  if name ≠ "" then { v with configName := name, configFile := "" } else v

/-- The method `SetConfigType`. -/
def SetConfigType (v : Viper) (t : String) : Viper :=
  if t ≠ "" then { v with configType := t } else v

/-- The method `SetConfigFile`. -/
def SetConfigFile (v : Viper) (file : String) : Viper :=
  if file ≠ "" then { v with configFile := file } else v

/-- The method `SetDefault`. -/
def SetDefault (v : Viper) (key value : String) : Viper :=
  { v with defaults := (key, value) :: v.defaults }

/-- The method `GetString`: the value read from the configuration file wins
over the default; an unknown key reads as the empty string. -/
def GetString (v : Viper) (key : String) : String :=
  match assocGet key v.config with
  | some x => x
  | none =>
    match assocGet key v.defaults with
    | some x => x
    | none => ""

/-- The method `ConfigFileUsed`. -/
def ConfigFileUsed (v : Viper) : String := v.configFile

/-- The method `AllKeys`: every key known to the store, once. -/
def AllKeys (v : Viper) : List String :=
  (v.config.map Prod.fst ++ v.defaults.map Prod.fst).dedup

/-- The method `AllSettings`: every known key with its current value. -/
def AllSettings (v : Viper) : List (String × String) :=
  v.AllKeys.map (fun k => (k, v.GetString k))

/-- The method `WriteConfigAs(filename)`: the file is opened with
`O_CREATE|O_TRUNC|O_WRONLY` (mode 0644 when new) and all settings are written. -/
def WriteConfigAs (env : Env) (v : Viper) (filename : String) (w : World) :
    Option GoError × World :=
  let w1 := w.log (Call.writeConfigAs filename)
  match env.fault w.fs (Call.writeConfigAs filename) with
  | some e => (some e, w1)
  | none =>
    match assocGet filename w.fs with
    | some (Node.dir _) => (some ("open " ++ filename ++ ": is a directory"), w1)
    | some (Node.file mode _) =>
      (none, { w1 with fs := (filename, Node.file mode v.AllSettings) :: w.fs })
    | none => (none, { w1 with fs := (filename, Node.file 0o644 v.AllSettings) :: w.fs })

/-- The method `ReadInConfig()`: without a configuration file set there is
nothing to find (the package adds no search path); otherwise the file is read
and, when that succeeds, its content replaces the `config` layer. -/
def ReadInConfig (env : Env) (v : Viper) (w : World) : Option GoError × Viper × World :=
  if v.configFile = "" then (some "Config File Not Found", v, w)
  else
    let w1 := w.log (Call.readInConfig v.configFile)
    match env.fault w.fs (Call.readInConfig v.configFile) with
    | some e => (some e, v, w1)
    | none =>
      match assocGet v.configFile w.fs with
      | some (Node.file _ content) => (none, { v with config := content }, w1)
      | some (Node.dir _) => (some ("read " ++ v.configFile ++ ": is a directory"), v, w1)
      | none => (some ("open " ++ v.configFile ++ ": no such file or directory"), v, w1)

end Viper

/-! ## Package `config` -/

/-- ConfigFileName is the name of the config files (home / project). -/
def ConfigFileName : String := "config"

/-- ConfigFileType is the config file extension. -/
def ConfigFileType : String := "yaml"

/-- ConfigFileNameWithExt is the config filename with extension. -/
def ConfigFileNameWithExt : String := ConfigFileName ++ "." ++ ConfigFileType

/-- ConfigDir is the directory for astro files. -/
def ConfigDir : String := ".astro"

/-- HomeConfigPath is the path to the users global directory. -/
def HomeConfigPath (env : Env) : String := filepathJoin env.homeDir ConfigDir

/-- HomeConfigFile is the global config file. -/
def HomeConfigFile (env : Env) : String :=
  filepathJoin (HomeConfigPath env) ConfigFileNameWithExt

/-- Modelled from the spec: the type `cfg` of a configuration setting, declared
outside the sources at hand: "path: dotted string key, required: bool,
default: string". -/
structure cfg where
  Path : String
  Required : Bool
  Default : String
  deriving DecidableEq, Repr

/-- Modelled from the spec: the constructor `newCfg`, declared outside the
sources at hand; it builds the setting that `CFGStrMap` registers under its
path. -/
def newCfg (path : String) (required : Bool) (dflt : String) : cfg :=
  { Path := path, Required := required, Default := dflt }

/-- Modelled from the spec: the type `cfgs` of the registry `CFG`, one field
per logical setting name. -/
structure cfgs where
  CloudDomain : cfg
  CloudAPIProtocol : cfg
  CloudAPIPort : cfg
  PostgresUser : cfg
  PostgresPassword : cfg
  PostgresHost : cfg
  PostgresPort : cfg
  RegistryAuthority : cfg
  RegistryUser : cfg
  RegistryPassword : cfg
  ProjectName : cfg
  UserAPIAuthToken : cfg

/-- CFG houses configuration meta. -/
def CFG : cfgs :=
  { CloudDomain := newCfg "cloud.domain" true ""
    CloudAPIProtocol := newCfg "cloud.api.protocol" true "https"
    CloudAPIPort := newCfg "cloud.api.port" true "443"
    PostgresUser := newCfg "postgres.user" true "postgres"
    PostgresPassword := newCfg "postgres.password" true "postgres"
    PostgresHost := newCfg "postgres.host" true "postgres"
    PostgresPort := newCfg "postgres.port" true "5432"
    RegistryAuthority := newCfg "docker.registry.authority" true ""
    RegistryUser := newCfg "docker.registry.user" true "admin"
    RegistryPassword := newCfg "docker.registry.password" true "admin"
    ProjectName := newCfg "project.name" true ""
    UserAPIAuthToken := newCfg "user.apiAuthToken" true "" }

/-- CFGStrMap maintains string to cfg mapping: the settings registered by the
twelve `newCfg` calls of `CFG`, in the order of those calls. -/
def CFGStrMap : List cfg :=
  [CFG.CloudDomain, CFG.CloudAPIProtocol, CFG.CloudAPIPort, CFG.PostgresUser,
   CFG.PostgresPassword, CFG.PostgresHost, CFG.PostgresPort, CFG.RegistryAuthority,
   CFG.RegistryUser, CFG.RegistryPassword, CFG.ProjectName, CFG.UserAPIAuthToken]

/-- The state of the process: the operating-system side, the two package-level
stores `viperHome` and `viperProject`, and what was printed on standard
output. -/
structure State where
  world : World
  viperHome : Viper
  viperProject : Viper
  stdout : String
  deriving DecidableEq, Repr

/-- The call `fmt.Printf(format, err)` for a format that ends in its verb. -/
def State.printf (s : State) (text : String) : State :=
  { s with stdout := s.stdout ++ text }

/-- saveConfig will save the config to a file. -/
def saveConfig (env : Env) (v : Viper) (file : String) (w : World) :
    Option GoError × World :=
  match v.WriteConfigAs env file w with
  | (some err, w1) => (some (errorsWrap err "Error saving config"), w1)
  | (none, w1) => (none, w1)

/-- CreateConfig creates a config file in the given directory. The result of
`os.Chmod` is dropped, as in the source. -/
def CreateConfig (env : Env) (v : Viper) (path file : String) (w : World) :
    Option GoError × World :=
  match osMkdirAll env path 0o770 w with
  | (some err, w1) => (some (errorsWrap err "Error creating config directory"), w1)
  | (none, w1) =>
    match osCreate env file w1 with
    | (some err, w2) => (some (errorsWrap err "Error creating config file"), w2)
    | (none, w2) => saveConfig env v file (osChmod env file 0o600 w2).2

/-- The first half of `initHome`: the fresh home store with its name, type,
file and the non-empty defaults of the registry. -/
def homeStore (env : Env) : Viper :=
  CFGStrMap.foldl
    (fun v c => if c.Default.length > 0 then v.SetDefault c.Path c.Default else v)
    (((Viper.New.SetConfigName ConfigFileName).SetConfigType ConfigFileType).SetConfigFile
      (HomeConfigFile env))

/-- The tail of `initHome`: read in home config. -/
def readHome (env : Env) (s : State) : State :=
  match s.viperHome.ReadInConfig env s.world with
  | (some err, v, w) =>
    { s with viperHome := v, world := w }.printf ("Error reading config in home dir: " ++ err)
  | (none, v, w) => { s with viperHome := v, world := w }

/-- Init viper for config file in home directory. -/
def initHome (env : Env) (s : State) : State :=
  let s1 := { s with viperHome := homeStore env }
  if !fileutilExists s1.world.fs (HomeConfigFile env) then
    match CreateConfig env s1.viperHome (HomeConfigPath env) (HomeConfigFile env) s1.world with
    | (some err, w) =>
      { s1 with world := w }.printf ("Error creating default config in home dir: " ++ err)
    | (none, w) => readHome env { s1 with world := w }
  else readHome env s1

/-- Init viper for config file in project directory.
If project config does not exist, just exit. -/
def initProject (env : Env) (s : State) : State :=
  let s1 := { s with viperProject :=
    (Viper.New.SetConfigName ConfigFileName).SetConfigType ConfigFileType }
  match env.findDirInPath s1.world.fs ConfigDir with
  | (_, some searchErr) =>
    s1.printf ("Error searching for project dir: " ++ searchErr ++ "\n")
  | (configPath, none) =>
    let projectConfigFile := filepathJoin configPath ConfigFileNameWithExt
    if configPath.length = 0 ∨ configPath = HomeConfigPath env ∨
        !fileutilExists s1.world.fs projectConfigFile then s1
    else
      match (s1.viperProject.SetConfigFile projectConfigFile).ReadInConfig env s1.world with
      | (some readErr, v, w) =>
        { s1 with viperProject := v, world := w }.printf
          ("Error reading config in project dir: " ++ readErr)
      | (none, v, w) => { s1 with viperProject := v, world := w }

/-- InitConfig initializes the config files. -/
def InitConfig (env : Env) (s : State) : State :=
  initProject env (initHome env s)

/-- CreateProjectConfig creates a project config file. The Go function has no
result: all it hands back is the changed process state. -/
def CreateProjectConfig (env : Env) (projectPath : String) (s : State) : State :=
  let projectConfigDir := filepathJoin projectPath ConfigDir
  let projectConfigFile := filepathJoin projectConfigDir ConfigFileNameWithExt
  match CreateConfig env s.viperProject projectConfigDir projectConfigFile s.world with
  | (some err, w) =>
    { s with world := w }.printf ("Error creating default config in project dir: " ++ err)
  | (none, w) =>
    { s with world := w, viperProject := s.viperProject.SetConfigFile projectConfigFile }

/-- configExists returns a boolean indicating if the config is backed by a file. -/
def configExists (v : Viper) : Bool :=
  decide (v.ConfigFileUsed.length > 0)

/-- ProjectConfigExists returns a boolean indicating if a project config file exists. -/
def ProjectConfigExists (s : State) : Bool :=
  configExists s.viperProject

/-- ProjectRoot returns the path to the nearest project root. -/
def ProjectRoot (env : Env) (s : State) : String × Option GoError :=
  match env.findDirInPath s.world.fs ConfigDir with
  | (_, some searchErr) => ("", some searchErr)
  | (configPath, none) =>
    if configPath.length = 0 then ("", none)
    else (filepathDir configPath, none)

/-! ## Package `deployment`: the user operations

Only the tests of `Add`, `DeleteUser` and `UpdateUser` are among the sources at
hand; the operations and the Houston client are modelled from the
specification. -/

/-- Modelled from the spec: a GraphQL mutation request of the Houston client,
"accepts a GraphQL operation name/variables". -/
structure Request where
  operation : String
  vars : List (String × String)
  deriving DecidableEq, Repr

/-- Modelled from the spec: the role binding echoed by the server,
"deploymentID, userEmail, role". -/
structure RoleBinding where
  deploymentID : String
  userEmail : String
  role : String
  deriving DecidableEq, Repr

/-- Modelled from the spec: one entry of the error list of a GraphQL response,
"message + optional machine code". -/
structure GraphQLError where
  message : String
  code : Option String
  deriving DecidableEq, Repr

/-- Modelled from the spec: what the HTTP transport hands to the Houston
client: the status, the error list and the decoded data object of the body. -/
structure Response where
  statusCode : Nat
  errors : List GraphQLError
  data : RoleBinding
  deriving DecidableEq, Repr

/-- Modelled from the spec: the APIResult, "either a success payload (role
binding echo) or a structured error (message + optional machine code)". -/
inductive APIResult where
  | success (payload : RoleBinding)
  | failure (err : GraphQLError)
  deriving DecidableEq, Repr

/-- Modelled from the spec: the Houston client over a transport; it "returns
either a decoded success payload or a structured error extracted from the
GraphQL response's error list (first error's message is authoritative)",
whatever the HTTP status. -/
def houstonDo (transport : Request → Response) (req : Request) : APIResult :=
  match (transport req).errors with
  | e :: _ => APIResult.failure e
  | [] => APIResult.success (transport req).data

/-- Modelled from the spec: the add-user-role mutation, "embedding
deploymentID, user email, and (for add/update) role". -/
def addRequest (deploymentID email role : String) : Request :=
  { operation := "add-user-role",
    vars := [("deploymentId", deploymentID), ("email", email), ("role", role)] }

/-- Modelled from the spec: the remove-user-role mutation. -/
def removeRequest (deploymentID email : String) : Request :=
  { operation := "remove-user-role",
    vars := [("deploymentId", deploymentID), ("email", email)] }

/-- Modelled from the spec: the update-user-role mutation. -/
def updateRequest (deploymentID email role : String) : Request :=
  { operation := "update-user-role",
    vars := [("deploymentId", deploymentID), ("email", email), ("role", role)] }

/-- Modelled from the spec: `Add`, which is not among the sources at hand. One
request; on success the line "Successfully added email as a role" is written
to the output sink `out`; on error the server message is returned unchanged
and nothing is written. The result is the error and the new content of the
sink. -/
def Add (deploymentID email role : String) (client : Request → APIResult) (out : String) :
    Option GoError × String :=
  match client (addRequest deploymentID email role) with
  | APIResult.failure err => (some err.message, out)
  | APIResult.success _ =>
    (none, out ++ ("Successfully added " ++ email ++ " as a " ++ role) ++ "\n")

/-- Modelled from the spec: `DeleteUser`, which is not among the sources at
hand; the role of the confirmation line is the one returned by the server. -/
def DeleteUser (deploymentID email : String) (client : Request → APIResult) (out : String) :
    Option GoError × String :=
  match client (removeRequest deploymentID email) with
  | APIResult.failure err => (some err.message, out)
  | APIResult.success payload =>
    (none, out ++ ("Successfully removed the " ++ payload.role ++ " role for " ++ email ++
      " from deployment " ++ deploymentID) ++ "\n")

/-- Modelled from the spec: `UpdateUser`, which is not among the sources at
hand. -/
def UpdateUser (deploymentID email role : String) (client : Request → APIResult)
    (out : String) : Option GoError × String :=
  match client (updateRequest deploymentID email role) with
  | APIResult.failure err => (some err.message, out)
  | APIResult.success _ =>
    (none, out ++ ("Successfully updated " ++ email ++ " to a " ++ role) ++ "\n")

/-- The text `sub` occurs in `text`. -/
def Contains (text sub : String) : Prop :=
  ∃ before after : String, text = before ++ sub ++ after

/-! ## Environments and states used as examples -/

/-- An environment whose upward search yields the pair given. -/
def searchEnv (home : String) (found : String × Option GoError) : Env :=
  { homeDir := home, fault := fun _ _ => none, findDirInPath := fun _ _ => found }

/-- A process state before `InitConfig`, in file system `fs`. -/
def freshState (fs : FileSys) : State :=
  { world := { fs := fs, trace := [] }, viperHome := Viper.New, viperProject := Viper.New,
    stdout := "" }

/-- An environment in which every call named by `failing` is answered with the
error it gives, and whose search finds `found`. -/
def faultEnv (home : String) (failing : Call → Option GoError)
    (found : String × Option GoError) : Env :=
  { homeDir := home, fault := fun _ c => failing c, findDirInPath := fun _ _ => found }

/-- Modelled from the spec: the Project Locator behind `fileutil.FindDirInPath`,
which is not among the sources at hand: "search the current working directory
and each ancestor, in order from current directory upward to filesystem root,
for a directory entry matching a fixed marker name; return the first match's
path, or indicate not-found without erroring". `fuel` bounds the number of
directories visited. -/
def locateFrom (fs : FileSys) (search : String) : Nat → String → String × Option GoError
  | 0, _ => ("", none)
  | fuel + 1, dir =>
    match assocGet (filepathJoin dir search) fs with
    | some (Node.dir _) => (filepathJoin dir search, none)
    | _ => if filepathDir dir = dir then ("", none)
           else locateFrom fs search fuel (filepathDir dir)

/-- An environment without faults whose search is the Project Locator started
in the working directory `cwd`. -/
def locatorEnv (home cwd : String) : Env :=
  { homeDir := home, fault := fun _ _ => none,
    findDirInPath := fun fs search => locateFrom fs search (cwd.length + 1) cwd }

/-- The project store as `initProject` leaves it after reading the file given. -/
def boundProjectStore (file : String) (content : List (String × String)) : Viper :=
  { configName := "config", configType := "yaml", configFile := file, defaults := [],
    config := content }

/-- A project whose configuration file belongs to another user and is read-only
for the process: the file can be read, and `os.Create` on it is refused. -/
def readOnlyEnv : Env :=
  faultEnv "/home/u"
    (fun c => if c = Call.create "/work/proj/.astro/config.yaml"
      then some "open /work/proj/.astro/config.yaml: permission denied" else none)
    ("/work/proj/.astro", none)

/-- The same project with a file that belongs to the user. -/
def writableEnv : Env :=
  searchEnv "/home/u" ("/work/proj/.astro", none)

/-- The file system of that project: a home configuration and a project
configuration. -/
def projectFs : FileSys :=
  [("/work/proj/.astro/config.yaml", Node.file 0o644 [("project.name", "demo")]),
   ("/work/proj/.astro", Node.dir 0o775),
   ("/home/u/.astro/config.yaml", Node.file 0o600 [("postgres.user", "alice")]),
   ("/home/u/.astro", Node.dir 0o770)]

/-- The defaults that `initHome` sets: the registered settings whose default is
not empty. -/
def homeDefaults : List (String × String) :=
  (CFGStrMap.foldl
    (fun v c => if c.Default.length > 0 then v.SetDefault c.Path c.Default else v)
    Viper.New).defaults

/-- What `WriteConfigAs` writes for the home store. -/
def homeSettings : List (String × String) :=
  Viper.AllSettings { configName := "", configType := "", configFile := "",
                      defaults := homeDefaults, config := [] }

/-- A home directory whose configuration file the user has edited. -/
def editedHomeFs : FileSys :=
  [("/home/u/.astro/config.yaml",
      Node.file 0o600 [("postgres.user", "alice"), ("cloud.domain", "astro.example.com")]),
   ("/home/u/.astro", Node.dir 0o770)]

/-- A transport that answers every request with the response given. -/
def constTransport (r : Response) : Request → Response := fun _ => r

/-- The response of the tests for a refused mutation. -/
def errorResponse (status : Nat) (message : String) : Response :=
  { statusCode := status,
    errors := [{ message := message, code := some "BAD_USER_INPUT" }],
    data := { deploymentID := "", userEmail := "", role := "" } }

/-- The response of the tests for an accepted mutation. -/
def okResponse (role : String) : Response :=
  { statusCode := 200, errors := [],
    data := { deploymentID := "ckggzqj5f4157qtc9lescmehm",
              userEmail := "somebody@astronomer.com", role := role } }

/-- The project directory of the failing run of CreateConfig: the
configuration file exists with mode 0664 and belongs to another user of the
group of the process. -/
def sharedProjectFs : FileSys :=
  [("/work/proj/.astro/config.yaml", Node.file 0o664 [("project.name", "demo")]),
   ("/work/proj/.astro", Node.dir 0o775)]

/-- The environment of that run: the process may truncate and write the file,
and `os.Chmod` on it is refused because the file belongs to someone else. -/
def sharedProjectEnv : Env :=
  faultEnv "/home/u"
    (fun c => if c = Call.chmod "/work/proj/.astro/config.yaml" 0o600
      then some "chmod /work/proj/.astro/config.yaml: operation not permitted" else none)
    ("/work/proj/.astro", none)

/-! ## Facts about the collaborators -/

theorem osMkdirAll_trace (env : Env) (path : String) (perm : Nat) (w : World) :
    (osMkdirAll env path perm w).2.trace = w.trace ++ [Call.mkdirAll path perm] := by
  unfold osMkdirAll
  split
  · rfl
  · split <;> rfl

theorem osMkdirAll_fs_of_error (env : Env) (path : String) (perm : Nat) (w : World)
    (e : GoError) (h : (osMkdirAll env path perm w).1 = some e) :
    (osMkdirAll env path perm w).2.fs = w.fs := by
  unfold osMkdirAll at h ⊢
  split
  · rfl
  · split
    · rfl
    · rfl
    · simp_all

theorem osCreate_trace (env : Env) (name : String) (w : World) :
    (osCreate env name w).2.trace = w.trace ++ [Call.create name] := by
  unfold osCreate
  split
  · rfl
  · split <;> rfl

theorem osCreate_fs_of_error (env : Env) (name : String) (w : World)
    (e : GoError) (h : (osCreate env name w).1 = some e) :
    (osCreate env name w).2.fs = w.fs := by
  unfold osCreate at h ⊢
  split
  · rfl
  · split
    · rfl
    · simp_all
    · simp_all

theorem osChmod_trace (env : Env) (name : String) (mode : Nat) (w : World) :
    (osChmod env name mode w).2.trace = w.trace ++ [Call.chmod name mode] := by
  unfold osChmod
  split
  · rfl
  · split <;> rfl

theorem WriteConfigAs_trace (env : Env) (v : Viper) (filename : String) (w : World) :
    (v.WriteConfigAs env filename w).2.trace = w.trace ++ [Call.writeConfigAs filename] := by
  unfold Viper.WriteConfigAs
  split
  · rfl
  · split <;> rfl

theorem osCreate_ok_get (env : Env) (name : String) (w : World)
    (h : (osCreate env name w).1 = none) :
    ∃ m, assocGet name (osCreate env name w).2.fs = some (Node.file m []) := by
  unfold osCreate at h ⊢
  split
  · simp_all
  · split
    · simp_all
    · rename_i mode content hget
      exact ⟨mode, by simp [assocGet]⟩
    · exact ⟨0o666, by simp [assocGet]⟩

theorem osChmod_ok_get_file (env : Env) (name : String) (mode : Nat) (w : World)
    (m : Nat) (c : List (String × String))
    (h : (osChmod env name mode w).1 = none)
    (hf : assocGet name w.fs = some (Node.file m c)) :
    assocGet name (osChmod env name mode w).2.fs = some (Node.file mode c) := by
  unfold osChmod at h ⊢
  split
  · simp_all
  · rw [hf]
    simp [assocGet]

theorem WriteConfigAs_ok_get (env : Env) (v : Viper) (filename : String) (w : World)
    (m : Nat) (c : List (String × String))
    (h : (v.WriteConfigAs env filename w).1 = none)
    (hf : assocGet filename w.fs = some (Node.file m c)) :
    assocGet filename (v.WriteConfigAs env filename w).2.fs
      = some (Node.file m v.AllSettings) := by
  unfold Viper.WriteConfigAs at h ⊢
  split
  · simp_all
  · rw [hf]
    simp [assocGet]

theorem saveConfig_ok (env : Env) (v : Viper) (file : String) (w : World)
    (h : (saveConfig env v file w).1 = none) :
    (v.WriteConfigAs env file w).1 = none ∧
    (saveConfig env v file w).2 = (v.WriteConfigAs env file w).2 := by
  unfold saveConfig at h ⊢
  rcases hw : v.WriteConfigAs env file w with ⟨r, w1⟩
  rw [hw] at h
  cases r with
  | none => exact ⟨rfl, rfl⟩
  | some e => simp at h

theorem saveConfig_snd (env : Env) (v : Viper) (file : String) (w : World) :
    (saveConfig env v file w).2 = (v.WriteConfigAs env file w).2 := by
  unfold saveConfig
  rcases hw : v.WriteConfigAs env file w with ⟨r, w1⟩
  cases r <;> rfl

theorem CreateConfig_of_mkdir_error (env : Env) (v : Viper) (dir file : String) (w : World)
    (e : GoError) (h : (osMkdirAll env dir 0o770 w).1 = some e) :
    CreateConfig env v dir file w
      = (some (errorsWrap e "Error creating config directory"), (osMkdirAll env dir 0o770 w).2) := by
  unfold CreateConfig
  rcases hm : osMkdirAll env dir 0o770 w with ⟨r, w1⟩
  rw [hm] at h
  simp only at h
  subst h
  rfl

theorem CreateConfig_of_create_error (env : Env) (v : Viper) (dir file : String) (w : World)
    (e : GoError) (h1 : (osMkdirAll env dir 0o770 w).1 = none)
    (h2 : (osCreate env file (osMkdirAll env dir 0o770 w).2).1 = some e) :
    CreateConfig env v dir file w
      = (some (errorsWrap e "Error creating config file"),
          (osCreate env file (osMkdirAll env dir 0o770 w).2).2) := by
  unfold CreateConfig
  rcases hm : osMkdirAll env dir 0o770 w with ⟨r, w1⟩
  rw [hm] at h1 h2
  simp only at h1 h2
  subst h1
  rcases hc : osCreate env file w1 with ⟨r2, w2⟩
  rw [hc] at h2
  simp only at h2
  subst h2
  simp only [hc]

theorem CreateConfig_of_created (env : Env) (v : Viper) (dir file : String) (w : World)
    (h1 : (osMkdirAll env dir 0o770 w).1 = none)
    (h2 : (osCreate env file (osMkdirAll env dir 0o770 w).2).1 = none) :
    CreateConfig env v dir file w
      = saveConfig env v file
          (osChmod env file 0o600 (osCreate env file (osMkdirAll env dir 0o770 w).2).2).2 := by
  unfold CreateConfig
  rcases hm : osMkdirAll env dir 0o770 w with ⟨r, w1⟩
  rw [hm] at h1 h2
  simp only at h1 h2
  subst h1
  rcases hc : osCreate env file w1 with ⟨r2, w2⟩
  rw [hc] at h2
  simp only at h2
  subst h2
  simp only [hc]

/-- The model of `path/filepath` on cases of the tables of Go's own tests for
Clean, Dir and Join. -/
theorem filepath_model_examples :
    filepathClean "abc/def/../../../ghi/jkl/../../../mno" = "../../mno" ∧
    filepathClean "/abc/def/../../.." = "/" ∧
    filepathClean "abc//./../def" = "def" ∧
    filepathClean "//abc//" = "/abc" ∧
    filepathClean "abc/def/../.." = "." ∧
    filepathClean "/../abc" = "/abc" ∧
    filepathClean "../../" = "../.." ∧
    filepathClean "" = "." ∧
    filepathDir "" = "." ∧
    filepathDir "." = "." ∧
    filepathDir "/." = "/" ∧
    filepathDir "/foo" = "/" ∧
    filepathDir "x/" = "x" ∧
    filepathDir "abc" = "." ∧
    filepathDir "abc/def" = "abc" ∧
    filepathDir "a/b/.x" = "a/b" ∧
    filepathDir "a/b/c." = "a/b" ∧
    filepathDir "a/b/c.x" = "a/b" ∧
    filepathJoin "a" "b" = "a/b" ∧
    filepathJoin "a" "" = "a" ∧
    filepathJoin "" "b" = "b" ∧
    filepathJoin "/" "a" = "/a" ∧
    filepathJoin "a/" "b" = "a/b" ∧
    filepathJoin "" "" = "" ∧
    filepathJoin "//" "a" = "/a" := by
  decide

theorem string_length_eq_zero (p : String) : p.length = 0 ↔ p = "" := by
  constructor
  · intro h
    have h1 : p.data = [] := List.length_eq_zero.mp h
    exact String.ext h1
  · intro h
    subst h
    rfl

theorem cleanChars_ne_nil (path : List Char) : cleanChars path ≠ [] := by
  unfold cleanChars
  cases path with
  | nil => simp
  | cons c cs =>
    simp only
    split_ifs with h1 h2
    · simp
    · simp
    · exact h2

theorem filepathClean_ne_empty (path : String) : filepathClean path ≠ "" := by
  intro h
  have h1 : (filepathClean path).data = [] := by rw [h]
  exact cleanChars_ne_nil _ h1

theorem filepathDir_ne_empty (path : String) : filepathDir path ≠ "" := by
  intro h
  have h1 : (filepathDir path).data = [] := by rw [h]
  exact cleanChars_ne_nil _ h1

theorem filepathJoin_ne_empty (a b : String) (hb : b ≠ "") : filepathJoin a b ≠ "" := by
  unfold filepathJoin
  by_cases h1 : a = ""
  · rw [if_pos h1, if_neg hb]
    exact filepathClean_ne_empty _
  · rw [if_neg h1]
    exact filepathClean_ne_empty _

theorem HomeConfigPath_ne_empty (env : Env) : HomeConfigPath env ≠ "" :=
  filepathJoin_ne_empty _ _ (by decide)

theorem CreateConfig_ok_steps (env : Env) (v : Viper) (dir file : String) (w : World)
    (hok : (CreateConfig env v dir file w).1 = none) :
    (osMkdirAll env dir 0o770 w).1 = none ∧
    (osCreate env file (osMkdirAll env dir 0o770 w).2).1 = none := by
  cases hm : (osMkdirAll env dir 0o770 w).1 with
  | some e =>
    rw [CreateConfig_of_mkdir_error env v dir file w e hm] at hok
    simp at hok
  | none =>
    cases hc : (osCreate env file (osMkdirAll env dir 0o770 w).2).1 with
    | some e =>
      rw [CreateConfig_of_create_error env v dir file w e hm hc] at hok
      simp at hok
    | none => exact ⟨rfl, rfl⟩

theorem osChmod_keeps_file (env : Env) (name : String) (mode : Nat) (w : World)
    (m : Nat) (c : List (String × String))
    (hf : assocGet name w.fs = some (Node.file m c)) :
    ∃ m1, assocGet name (osChmod env name mode w).2.fs = some (Node.file m1 c) := by
  unfold osChmod
  split
  · exact ⟨m, hf⟩
  · rw [hf]
    exact ⟨mode, by simp [assocGet]⟩

theorem WriteConfigAs_fs_of_error (env : Env) (v : Viper) (filename : String) (w : World)
    (e : GoError) (h : (v.WriteConfigAs env filename w).1 = some e) :
    (v.WriteConfigAs env filename w).2.fs = w.fs := by
  unfold Viper.WriteConfigAs at h ⊢
  split
  · rfl
  · split
    · rfl
    · simp_all
    · simp_all

theorem ReadInConfig_fs (env : Env) (v : Viper) (w : World) :
    (v.ReadInConfig env w).2.2.fs = w.fs := by
  unfold Viper.ReadInConfig
  split
  · rfl
  · simp only
    split
    · rfl
    · split <;> rfl

theorem ReadInConfig_trace (env : Env) (v : Viper) (w : World) :
    (v.ReadInConfig env w).2.2.trace = w.trace ∨
    (v.ReadInConfig env w).2.2.trace = w.trace ++ [Call.readInConfig v.configFile] := by
  unfold Viper.ReadInConfig
  split
  · exact Or.inl rfl
  · simp only
    split
    · exact Or.inr rfl
    · split <;> exact Or.inr rfl

/-- The store that ReadInConfig leaves: the old one, or the old one with the
content of its configuration file as `config` layer. -/
theorem ReadInConfig_store (env : Env) (v : Viper) (w : World) :
    (v.ReadInConfig env w).2.1 = v ∨
    ∃ m content, assocGet v.configFile w.fs = some (Node.file m content) ∧
      (v.ReadInConfig env w).2.1 = { v with config := content } := by
  unfold Viper.ReadInConfig
  split
  · exact Or.inl rfl
  · simp only
    split
    · exact Or.inl rfl
    · split
      · rename_i m content hget
        exact Or.inr ⟨m, content, hget, rfl⟩
      · exact Or.inl rfl
      · exact Or.inl rfl

/-- A read that the operating system does not refuse loads the file. -/
theorem ReadInConfig_store_of_file (env : Env) (v : Viper) (w : World) (m : Nat)
    (content : List (String × String)) (hne : v.configFile ≠ "")
    (hfault : env.fault w.fs (Call.readInConfig v.configFile) = none)
    (hget : assocGet v.configFile w.fs = some (Node.file m content)) :
    (v.ReadInConfig env w).2.1 = { v with config := content } := by
  unfold Viper.ReadInConfig
  rw [if_neg hne]
  simp only [hfault, hget]

/-- The store that ReadInConfig leaves depends on the file system only. -/
theorem ReadInConfig_store_congr (env : Env) (v : Viper) (w1 w2 : World)
    (h : w1.fs = w2.fs) :
    (v.ReadInConfig env w1).2.1 = (v.ReadInConfig env w2).2.1 := by
  unfold Viper.ReadInConfig
  rw [h]
  split
  · rfl
  · simp only
    split
    · rfl
    · split <;> rfl

/-! ## ProjectRoot -/

/-- C1: ProjectRoot is fully determined by the result of the search for the
marker directory: a search error is returned unchanged with an empty path, an
empty path found gives the empty path and no error, a non-empty path found
gives its parent `filepath.Dir` and no error. -/
theorem ProjectRoot_determined_by_search (env : Env) (s : State) :
    (∀ p e, env.findDirInPath s.world.fs ConfigDir = (p, some e) →
      ProjectRoot env s = ("", some e)) ∧
    (env.findDirInPath s.world.fs ConfigDir = ("", none) →
      ProjectRoot env s = ("", none)) ∧
    (∀ p, p ≠ "" → env.findDirInPath s.world.fs ConfigDir = (p, none) →
      ProjectRoot env s = (filepathDir p, none)) := by
  refine ⟨?_, ?_, ?_⟩
  · intro p e h
    simp [ProjectRoot, h]
  · intro h
    simp [ProjectRoot, h]
  · intro p hp h
    have hlen : p.length ≠ 0 := fun h0 => hp ((string_length_eq_zero p).mp h0)
    simp [ProjectRoot, h, hlen]

/-- Witness for C1: a failing search, a search that finds nothing and a search
that finds `/work/proj/.astro`. -/
theorem ProjectRoot_determined_by_search_witness :
    ProjectRoot (searchEnv "/home/u" ("", some "permission denied")) (freshState [])
      = ("", some "permission denied") ∧
    ProjectRoot (searchEnv "/home/u" ("", none)) (freshState []) = ("", none) ∧
    ProjectRoot (searchEnv "/home/u" ("/work/proj/.astro", none)) (freshState [])
      = ("/work/proj", none) :=
  ⟨(ProjectRoot_determined_by_search
      (searchEnv "/home/u" ("", some "permission denied")) (freshState [])).1 _ _ rfl,
   (ProjectRoot_determined_by_search (searchEnv "/home/u" ("", none)) (freshState [])).2.1 rfl,
   (ProjectRoot_determined_by_search
      (searchEnv "/home/u" ("/work/proj/.astro", none)) (freshState [])).2.2
        "/work/proj/.astro" (by decide) rfl⟩

/-- C8, the code at the failing input: a first run of the user `u` in the
working directory `/home/u/work`, with no marker directory anywhere. InitConfig
creates the home configuration directory `/home/u/.astro`; from then on the
upward search finds it, `initProject` binds no project configuration, and
ProjectRoot reports the home directory `/home/u` as the project root. -/
theorem ProjectRoot_reports_home_dir :
    HomeConfigPath (locatorEnv "/home/u" "/home/u/work") = "/home/u/.astro" ∧
    (locatorEnv "/home/u" "/home/u/work").findDirInPath
        (InitConfig (locatorEnv "/home/u" "/home/u/work") (freshState [])).world.fs ConfigDir
      = ("/home/u/.astro", none) ∧
    ProjectConfigExists (InitConfig (locatorEnv "/home/u" "/home/u/work") (freshState []))
      = false ∧
    ProjectRoot (locatorEnv "/home/u" "/home/u/work")
        (InitConfig (locatorEnv "/home/u" "/home/u/work") (freshState []))
      = ("/home/u", none) := by
  refine ⟨by decide, by decide, by decide, by decide⟩

/-- Whenever the search returns the home configuration directory without an
error, ProjectRoot returns its parent, which is never the empty string. -/
theorem ProjectRoot_home_never_empty (env : Env) (s : State)
    (h : env.findDirInPath s.world.fs ConfigDir = (HomeConfigPath env, none)) :
    ProjectRoot env s = (filepathDir (HomeConfigPath env), none) ∧
    (ProjectRoot env s).1 ≠ "" := by
  have hlen : (HomeConfigPath env).length ≠ 0 :=
    fun h0 => HomeConfigPath_ne_empty env ((string_length_eq_zero _).mp h0)
  have h1 : ProjectRoot env s = (filepathDir (HomeConfigPath env), none) := by
    simp [ProjectRoot, h, hlen]
  rw [h1]
  exact ⟨rfl, filepathDir_ne_empty _⟩

/-! ## CreateConfig -/

/-- C6: CreateConfig stops at the first failure. A failing directory step gives
the cause wrapped in "Error creating config directory" and only the MkdirAll
call is made (no file created, nothing saved); a failing file step after a
successful directory step gives the cause wrapped in "Error creating config
file" and nothing is saved; when both succeed the result is that of saveConfig
on the file. -/
theorem CreateConfig_stops_at_first_failure (env : Env) (v : Viper) (dir file : String)
    (w : World) :
    (∀ e, (osMkdirAll env dir 0o770 w).1 = some e →
      (CreateConfig env v dir file w).1 = some ("Error creating config directory: " ++ e) ∧
      (CreateConfig env v dir file w).2.trace = w.trace ++ [Call.mkdirAll dir 0o770] ∧
      (CreateConfig env v dir file w).2.fs = w.fs) ∧
    (∀ e, (osMkdirAll env dir 0o770 w).1 = none →
      (osCreate env file (osMkdirAll env dir 0o770 w).2).1 = some e →
      (CreateConfig env v dir file w).1 = some ("Error creating config file: " ++ e) ∧
      (CreateConfig env v dir file w).2.trace
        = w.trace ++ [Call.mkdirAll dir 0o770, Call.create file] ∧
      (CreateConfig env v dir file w).2.fs = (osMkdirAll env dir 0o770 w).2.fs) ∧
    ((osMkdirAll env dir 0o770 w).1 = none →
      (osCreate env file (osMkdirAll env dir 0o770 w).2).1 = none →
      CreateConfig env v dir file w
        = saveConfig env v file
            (osChmod env file 0o600 (osCreate env file (osMkdirAll env dir 0o770 w).2).2).2) := by
  refine ⟨?_, ?_, ?_⟩
  · intro e h
    rw [CreateConfig_of_mkdir_error env v dir file w e h]
    exact ⟨rfl, osMkdirAll_trace _ _ _ _, osMkdirAll_fs_of_error _ _ _ _ e h⟩
  · intro e h1 h2
    rw [CreateConfig_of_create_error env v dir file w e h1 h2]
    refine ⟨rfl, ?_, osCreate_fs_of_error _ _ _ e h2⟩
    simp only [osCreate_trace, osMkdirAll_trace, List.append_assoc, List.singleton_append]
  · exact CreateConfig_of_created env v dir file w

/-- Witness for C6: a directory step that fails, a file step that fails, and a
run in which both succeed. -/
theorem CreateConfig_stops_at_first_failure_witness :
    (CreateConfig
        (faultEnv "/home/u"
          (fun c => if c = Call.mkdirAll "/p/.astro" 0o770 then some "permission denied" else none)
          ("", none))
        Viper.New "/p/.astro" "/p/.astro/config.yaml" (freshState []).world).1
      = some "Error creating config directory: permission denied" ∧
    (CreateConfig
        (faultEnv "/home/u"
          (fun c => if c = Call.create "/p/.astro/config.yaml" then some "disk full" else none)
          ("", none))
        Viper.New "/p/.astro" "/p/.astro/config.yaml" (freshState []).world).1
      = some "Error creating config file: disk full" ∧
    CreateConfig (searchEnv "/home/u" ("", none)) Viper.New "/p/.astro" "/p/.astro/config.yaml"
        (freshState []).world
      = saveConfig (searchEnv "/home/u" ("", none)) Viper.New "/p/.astro/config.yaml"
          (osChmod (searchEnv "/home/u" ("", none)) "/p/.astro/config.yaml" 0o600
            (osCreate (searchEnv "/home/u" ("", none)) "/p/.astro/config.yaml"
              (osMkdirAll (searchEnv "/home/u" ("", none)) "/p/.astro" 0o770
                (freshState []).world).2).2).2 :=
  ⟨((CreateConfig_stops_at_first_failure _ Viper.New "/p/.astro" "/p/.astro/config.yaml"
        (freshState []).world).1 "permission denied" (by decide)).1,
   ((CreateConfig_stops_at_first_failure _ Viper.New "/p/.astro" "/p/.astro/config.yaml"
        (freshState []).world).2.1 "disk full" (by decide) (by decide)).1,
   (CreateConfig_stops_at_first_failure (searchEnv "/home/u" ("", none)) Viper.New "/p/.astro"
        "/p/.astro/config.yaml" (freshState []).world).2.2 (by decide) (by decide)⟩

/-- When `os.Chmod` reports no error, a successful CreateConfig has made its
four calls in order (directory with 0770, file, chmod to 0600, save) and leaves
the file with mode 0600. -/
theorem CreateConfig_mode_when_chmod_succeeds (env : Env) (v : Viper) (dir file : String)
    (w : World) (hok : (CreateConfig env v dir file w).1 = none)
    (hch : (osChmod env file 0o600
      (osCreate env file (osMkdirAll env dir 0o770 w).2).2).1 = none) :
    (CreateConfig env v dir file w).2.trace
      = w.trace ++ [Call.mkdirAll dir 0o770, Call.create file, Call.chmod file 0o600,
          Call.writeConfigAs file] ∧
    assocGet file (CreateConfig env v dir file w).2.fs
      = some (Node.file 0o600 v.AllSettings) := by
  obtain ⟨h1, h2⟩ := CreateConfig_ok_steps env v dir file w hok
  rw [CreateConfig_of_created env v dir file w h1 h2] at hok ⊢
  obtain ⟨hw, hs⟩ := saveConfig_ok env v file _ hok
  rw [hs]
  constructor
  · simp [WriteConfigAs_trace, osChmod_trace, osCreate_trace, osMkdirAll_trace]
  · obtain ⟨m, hm⟩ := osCreate_ok_get env file _ h2
    exact WriteConfigAs_ok_get env v file _ _ _ hw
      (osChmod_ok_get_file env file 0o600 _ m [] hch hm)

/-- C9, the code at the failing input: in the shared project directory
`os.Chmod` fails, CreateConfig drops that result, makes all four calls, returns
no error, and the saved file still has mode 0664, not 0600. -/
theorem CreateConfig_succeeds_with_mode_not_tightened :
    (osChmod sharedProjectEnv "/work/proj/.astro/config.yaml" 0o600
        (osCreate sharedProjectEnv "/work/proj/.astro/config.yaml"
          (osMkdirAll sharedProjectEnv "/work/proj/.astro" 0o770
            { fs := sharedProjectFs, trace := [] }).2).2).1
      = some "chmod /work/proj/.astro/config.yaml: operation not permitted" ∧
    (CreateConfig sharedProjectEnv
        (boundProjectStore "/work/proj/.astro/config.yaml" [("project.name", "demo")])
        "/work/proj/.astro" "/work/proj/.astro/config.yaml"
        { fs := sharedProjectFs, trace := [] }).1 = none ∧
    (CreateConfig sharedProjectEnv
        (boundProjectStore "/work/proj/.astro/config.yaml" [("project.name", "demo")])
        "/work/proj/.astro" "/work/proj/.astro/config.yaml"
        { fs := sharedProjectFs, trace := [] }).2.trace
      = [Call.mkdirAll "/work/proj/.astro" 0o770,
         Call.create "/work/proj/.astro/config.yaml",
         Call.chmod "/work/proj/.astro/config.yaml" 0o600,
         Call.writeConfigAs "/work/proj/.astro/config.yaml"] ∧
    assocGet "/work/proj/.astro/config.yaml"
        (CreateConfig sharedProjectEnv
          (boundProjectStore "/work/proj/.astro/config.yaml" [("project.name", "demo")])
          "/work/proj/.astro" "/work/proj/.astro/config.yaml"
          { fs := sharedProjectFs, trace := [] }).2.fs
      = some (Node.file 0o664 [("project.name", "demo")]) := by
  refine ⟨by decide, by decide, by decide, by decide⟩

/-! ## initProject -/

/-- C7: when the search returns the home configuration directory, initProject
leaves the fresh project store without a configuration file and without any
value read, makes no call on the file system, and ProjectConfigExists is false
afterwards, whether or not `config.yaml` exists in that directory. -/
theorem initProject_home_dir_is_no_project (env : Env) (s : State) (e : Option GoError)
    (h : env.findDirInPath s.world.fs ConfigDir = (HomeConfigPath env, e)) :
    (initProject env s).viperProject.ConfigFileUsed = "" ∧
    (initProject env s).viperProject.config = [] ∧
    (initProject env s).world = s.world ∧
    ProjectConfigExists (initProject env s) = false := by
  have hs : initProject env s
      = { s with viperProject :=
            (Viper.New.SetConfigName ConfigFileName).SetConfigType ConfigFileType } ∨
      ∃ t, initProject env s
      = { s with viperProject :=
            (Viper.New.SetConfigName ConfigFileName).SetConfigType ConfigFileType }.printf t := by
    unfold initProject
    simp only [h]
    cases e with
    | some err => exact Or.inr ⟨_, rfl⟩
    | none => left; simp
  rcases hs with hs | ⟨t, hs⟩ <;> rw [hs] <;> exact ⟨rfl, rfl, rfl, rfl⟩

/-- Witness for C7: the search finds `/home/u/.astro`, the home configuration
directory, and `config.yaml` exists in it. -/
theorem initProject_home_dir_is_no_project_witness :
    fileutilExists [("/home/u/.astro/config.yaml", Node.file 0o600 [("project.name", "demo")]),
                    ("/home/u/.astro", Node.dir 0o770)] "/home/u/.astro/config.yaml" = true ∧
    ProjectConfigExists (initProject (searchEnv "/home/u" ("/home/u/.astro", none))
      (freshState [("/home/u/.astro/config.yaml", Node.file 0o600 [("project.name", "demo")]),
                   ("/home/u/.astro", Node.dir 0o770)])) = false :=
  ⟨by decide,
   (initProject_home_dir_is_no_project (searchEnv "/home/u" ("/home/u/.astro", none))
      (freshState [("/home/u/.astro/config.yaml", Node.file 0o600 [("project.name", "demo")]),
                   ("/home/u/.astro", Node.dir 0o770)]) none (by decide)).2.2.2⟩

/-! ## CreateProjectConfig -/

/-- C10, counterexample: in the read-only project, after InitConfig has bound
the project configuration, CreateConfig fails inside CreateProjectConfig. The
failure is printed on standard output and nowhere else: the function has no
result, and the package state it leaves (both stores, hence what
ProjectConfigExists answers) is the one a successful call leaves. -/
theorem CreateProjectConfig_failure_only_printed :
    (CreateConfig readOnlyEnv (InitConfig readOnlyEnv (freshState projectFs)).viperProject
        "/work/proj/.astro" "/work/proj/.astro/config.yaml"
        (InitConfig readOnlyEnv (freshState projectFs)).world).1
      = some "Error creating config file: open /work/proj/.astro/config.yaml: permission denied" ∧
    (CreateProjectConfig readOnlyEnv "/work/proj"
        (InitConfig readOnlyEnv (freshState projectFs))).stdout
      = "Error creating default config in project dir: Error creating config file: open /work/proj/.astro/config.yaml: permission denied" ∧
    (CreateProjectConfig writableEnv "/work/proj"
        (InitConfig writableEnv (freshState projectFs))).stdout = "" ∧
    (CreateProjectConfig readOnlyEnv "/work/proj"
        (InitConfig readOnlyEnv (freshState projectFs))).viperProject
      = (CreateProjectConfig writableEnv "/work/proj"
        (InitConfig writableEnv (freshState projectFs))).viperProject ∧
    (CreateProjectConfig readOnlyEnv "/work/proj"
        (InitConfig readOnlyEnv (freshState projectFs))).viperHome
      = (CreateProjectConfig writableEnv "/work/proj"
        (InitConfig writableEnv (freshState projectFs))).viperHome ∧
    ProjectConfigExists (CreateProjectConfig readOnlyEnv "/work/proj"
        (InitConfig readOnlyEnv (freshState projectFs))) = true ∧
    ProjectConfigExists (CreateProjectConfig writableEnv "/work/proj"
        (InitConfig writableEnv (freshState projectFs))) = true := by
  refine ⟨by decide, by decide, by decide, by decide, by decide, by decide, by decide⟩

/-- C10, amended: when CreateConfig fails inside CreateProjectConfig with error
`e`, the function prints "Error creating default config in project dir: e" on
standard output and returns normally; both stores are left as they were (the
new file is not bound to the project store) and the only other change is what
CreateConfig did to the file system before it failed. -/
theorem CreateProjectConfig_failure_printed (env : Env) (projectPath : String) (s : State)
    (e : GoError)
    (h : (CreateConfig env s.viperProject (filepathJoin projectPath ConfigDir)
      (filepathJoin (filepathJoin projectPath ConfigDir) ConfigFileNameWithExt) s.world).1
        = some e) :
    CreateProjectConfig env projectPath s
      = { world := (CreateConfig env s.viperProject (filepathJoin projectPath ConfigDir)
            (filepathJoin (filepathJoin projectPath ConfigDir) ConfigFileNameWithExt) s.world).2,
          viperHome := s.viperHome,
          viperProject := s.viperProject,
          stdout := s.stdout ++ ("Error creating default config in project dir: " ++ e) } := by
  unfold CreateProjectConfig
  rcases hc : CreateConfig env s.viperProject (filepathJoin projectPath ConfigDir)
      (filepathJoin (filepathJoin projectPath ConfigDir) ConfigFileNameWithExt) s.world
    with ⟨r, w⟩
  rw [hc] at h
  simp only at h
  subst h
  simp only [hc]
  rfl

/-- Witness for C10 (amended): the read-only project. -/
theorem CreateProjectConfig_failure_printed_witness :
    (CreateProjectConfig readOnlyEnv "/work/proj"
        (InitConfig readOnlyEnv (freshState projectFs))).stdout
      = "" ++ ("Error creating default config in project dir: " ++
          "Error creating config file: open /work/proj/.astro/config.yaml: permission denied") :=
  congrArg State.stdout
    (CreateProjectConfig_failure_printed readOnlyEnv "/work/proj"
      (InitConfig readOnlyEnv (freshState projectFs))
      "Error creating config file: open /work/proj/.astro/config.yaml: permission denied"
      (by decide))

/-! ## initHome and InitConfig -/

theorem HomeConfigFile_ne_empty (env : Env) : HomeConfigFile env ≠ "" :=
  filepathJoin_ne_empty _ _ (by decide)

theorem homeStore_eq (env : Env) :
    homeStore env = { configName := "config", configType := "yaml",
                      configFile := HomeConfigFile env, defaults := homeDefaults,
                      config := [] } := by
  have h : ((Viper.New.SetConfigName ConfigFileName).SetConfigType ConfigFileType).SetConfigFile
      (HomeConfigFile env)
      = { configName := "config", configType := "yaml", configFile := HomeConfigFile env,
          defaults := [], config := [] } := by
    unfold Viper.SetConfigFile
    rw [if_pos (HomeConfigFile_ne_empty env)]
    rfl
  unfold homeStore
  rw [h]
  rfl

/-- Reading a registered key with a non-empty default from a store that holds
the home defaults and nothing else. -/
theorem getString_homeDefaults (v : Viper) (hc : v.config = []) (hd : v.defaults = homeDefaults) :
    ∀ c ∈ CFGStrMap, c.Default ≠ "" → v.GetString c.Path = c.Default := by
  have key : ∀ c ∈ CFGStrMap, c.Default ≠ "" →
      (match assocGet c.Path homeDefaults with
        | some x => x
        | none => "") = c.Default := by decide
  intro c hmem hne
  unfold Viper.GetString
  rw [hc, hd]
  exact key c hmem hne

theorem AllSettings_congr (v1 v2 : Viper) (hc : v1.config = v2.config)
    (hd : v1.defaults = v2.defaults) : v1.AllSettings = v2.AllSettings := by
  unfold Viper.AllSettings Viper.AllKeys Viper.GetString
  rw [hc, hd]

theorem homeStore_AllSettings (env : Env) : (homeStore env).AllSettings = homeSettings := by
  unfold homeSettings
  apply AllSettings_congr
  · rw [homeStore_eq]
  · rw [homeStore_eq]

/-- Reading a registered key with a non-empty default from a store that has read
back the file written from the home defaults. -/
theorem getString_homeSettings (v : Viper) (hc : v.config = homeSettings) :
    ∀ c ∈ CFGStrMap, c.Default ≠ "" → v.GetString c.Path = c.Default := by
  have key : ∀ c ∈ CFGStrMap, c.Default ≠ "" → assocGet c.Path homeSettings = some c.Default := by
    decide
  intro c hmem hne
  unfold Viper.GetString
  rw [hc, key c hmem hne]

theorem initProject_viperHome (env : Env) (s : State) :
    (initProject env s).viperHome = s.viperHome := by
  unfold initProject
  simp only
  split
  · rfl
  · split
    · rfl
    · split <;> rfl

theorem initProject_fs (env : Env) (s : State) :
    (initProject env s).world.fs = s.world.fs := by
  unfold initProject
  simp only
  split
  · rfl
  · split
    · rfl
    · rename_i configPath _ _
      have hfs := ReadInConfig_fs env
        (((Viper.New.SetConfigName ConfigFileName).SetConfigType ConfigFileType).SetConfigFile
          (filepathJoin configPath ConfigFileNameWithExt)) s.world
      rcases hr : Viper.ReadInConfig env
        (((Viper.New.SetConfigName ConfigFileName).SetConfigType ConfigFileType).SetConfigFile
          (filepathJoin configPath ConfigFileNameWithExt)) s.world with ⟨r, v, w⟩
      rw [hr] at hfs
      cases r <;> exact hfs

theorem initProject_trace (env : Env) (s : State) :
    ∃ reads, (initProject env s).world.trace = s.world.trace ++ reads ∧
      ∀ c ∈ reads, ∃ f, c = Call.readInConfig f := by
  unfold initProject
  simp only
  split
  · exact ⟨[], by simp [State.printf], by simp⟩
  · split
    · exact ⟨[], by simp, by simp⟩
    · rename_i configPath _ _
      have htr := ReadInConfig_trace env
        (((Viper.New.SetConfigName ConfigFileName).SetConfigType ConfigFileType).SetConfigFile
          (filepathJoin configPath ConfigFileNameWithExt)) s.world
      rcases hr : Viper.ReadInConfig env
        (((Viper.New.SetConfigName ConfigFileName).SetConfigType ConfigFileType).SetConfigFile
          (filepathJoin configPath ConfigFileNameWithExt)) s.world with ⟨r, v, w⟩
      rw [hr] at htr
      rcases htr with ht | ht
      · refine ⟨[], ?_, by simp⟩
        cases r <;> simpa [State.printf] using ht
      · refine ⟨[Call.readInConfig
          (((Viper.New.SetConfigName ConfigFileName).SetConfigType ConfigFileType).SetConfigFile
            (filepathJoin configPath ConfigFileNameWithExt)).configFile], ?_, ?_⟩
        · cases r <;> simpa [State.printf] using ht
        · intro c hc
          exact ⟨_, List.mem_singleton.mp hc⟩

theorem readHome_fs (env : Env) (s : State) : (readHome env s).world.fs = s.world.fs := by
  have hfs := ReadInConfig_fs env s.viperHome s.world
  unfold readHome
  rcases hr : Viper.ReadInConfig env s.viperHome s.world with ⟨r, v, w⟩
  rw [hr] at hfs
  cases r <;> exact hfs

theorem readHome_viperHome (env : Env) (s : State) :
    (readHome env s).viperHome = (s.viperHome.ReadInConfig env s.world).2.1 := by
  unfold readHome
  rcases hr : Viper.ReadInConfig env s.viperHome s.world with ⟨r, v, w⟩
  cases r <;> rfl

theorem readHome_trace (env : Env) (s : State) :
    ∃ reads, (readHome env s).world.trace = s.world.trace ++ reads ∧
      ∀ c ∈ reads, ∃ f, c = Call.readInConfig f := by
  have htr := ReadInConfig_trace env s.viperHome s.world
  unfold readHome
  rcases hr : Viper.ReadInConfig env s.viperHome s.world with ⟨r, v, w⟩
  rw [hr] at htr
  rcases htr with ht | ht
  · refine ⟨[], ?_, by simp⟩
    cases r <;> simpa [State.printf] using ht
  · refine ⟨[Call.readInConfig s.viperHome.configFile], ?_, ?_⟩
    · cases r <;> simpa [State.printf] using ht
    · intro c hc
      exact ⟨_, List.mem_singleton.mp hc⟩

theorem initHome_of_exists (env : Env) (s : State)
    (hex : fileutilExists s.world.fs (HomeConfigFile env) = true) :
    initHome env s = readHome env { s with viperHome := homeStore env } := by
  unfold initHome
  simp [hex]

theorem initHome_of_absent (env : Env) (s : State)
    (habsent : fileutilExists s.world.fs (HomeConfigFile env) = false) :
    initHome env s
      = match CreateConfig env (homeStore env) (HomeConfigPath env) (HomeConfigFile env)
          s.world with
        | (some err, w) =>
          { s with viperHome := homeStore env, world := w }.printf
            ("Error creating default config in home dir: " ++ err)
        | (none, w) => readHome env { s with viperHome := homeStore env, world := w } := by
  unfold initHome
  simp [habsent]

theorem getString_of_config (v : Viper) (key value : String)
    (h : assocGet key v.config = some value) : v.GetString key = value := by
  unfold Viper.GetString
  rw [h]

theorem InitConfig_fs_of_exists (env : Env) (s : State)
    (hex : fileutilExists s.world.fs (HomeConfigFile env) = true) :
    (InitConfig env s).world.fs = s.world.fs := by
  unfold InitConfig
  rw [initProject_fs, initHome_of_exists env s hex, readHome_fs]

theorem InitConfig_viperHome_of_exists (env : Env) (s : State)
    (hex : fileutilExists s.world.fs (HomeConfigFile env) = true) :
    (InitConfig env s).viperHome = ((homeStore env).ReadInConfig env s.world).2.1 := by
  unfold InitConfig
  rw [initProject_viperHome, initHome_of_exists env s hex, readHome_viperHome]

/-- C5: with an existing home configuration file, InitConfig makes no call on
the file system other than reads (so CreateConfig is not called and nothing is
written), leaves the file system as it was, and, when the file is a readable
configuration file, every value stored in it is what the home store returns;
the same holds for a second run, which reads the same values again. -/
theorem InitConfig_keeps_existing_home_file (env : Env) (s : State)
    (hex : fileutilExists s.world.fs (HomeConfigFile env) = true) :
    (InitConfig env s).world.fs = s.world.fs ∧
    (∃ reads, (InitConfig env s).world.trace = s.world.trace ++ reads ∧
      ∀ c ∈ reads, ∃ f, c = Call.readInConfig f) ∧
    (∀ m content, assocGet (HomeConfigFile env) s.world.fs = some (Node.file m content) →
      env.fault s.world.fs (Call.readInConfig (HomeConfigFile env)) = none →
      ∀ key value, assocGet key content = some value →
        (InitConfig env s).viperHome.GetString key = value) ∧
    (InitConfig env (InitConfig env s)).world.fs = s.world.fs ∧
    (∃ reads, (InitConfig env (InitConfig env s)).world.trace = s.world.trace ++ reads ∧
      ∀ c ∈ reads, ∃ f, c = Call.readInConfig f) ∧
    (InitConfig env (InitConfig env s)).viperHome = (InitConfig env s).viperHome := by
  have hfs := InitConfig_fs_of_exists env s hex
  have hex2 : fileutilExists (InitConfig env s).world.fs (HomeConfigFile env) = true := by
    rw [hfs]; exact hex
  have htrace : ∀ t : State, fileutilExists t.world.fs (HomeConfigFile env) = true →
      ∃ reads, (InitConfig env t).world.trace = t.world.trace ++ reads ∧
        ∀ c ∈ reads, ∃ f, c = Call.readInConfig f := by
    intro t ht
    obtain ⟨r2, h2, hr2⟩ := initProject_trace env (initHome env t)
    obtain ⟨r1, h1, hr1⟩ := readHome_trace env { t with viperHome := homeStore env }
    rw [← initHome_of_exists env t ht] at h1
    refine ⟨r1 ++ r2, ?_, ?_⟩
    · unfold InitConfig
      rw [h2, h1, List.append_assoc]
    · intro c hc
      rcases List.mem_append.mp hc with hc | hc
      · exact hr1 c hc
      · exact hr2 c hc
  refine ⟨hfs, htrace s hex, ?_, ?_, ?_, ?_⟩
  · intro m content hget hfault key value hkv
    rw [InitConfig_viperHome_of_exists env s hex]
    have hcf : (homeStore env).configFile = HomeConfigFile env := by rw [homeStore_eq]
    have hstore := ReadInConfig_store_of_file env (homeStore env) s.world m content
      (by rw [hcf]; exact HomeConfigFile_ne_empty env) (by rw [hcf]; exact hfault)
      (by rw [hcf]; exact hget)
    rw [hstore]
    exact getString_of_config _ key value hkv
  · rw [InitConfig_fs_of_exists env _ hex2, hfs]
  · obtain ⟨r1, h1, hr1⟩ := htrace s hex
    obtain ⟨r2, h2, hr2⟩ := htrace (InitConfig env s) hex2
    refine ⟨r1 ++ r2, ?_, ?_⟩
    · rw [h2, h1, List.append_assoc]
    · intro c hc
      rcases List.mem_append.mp hc with hc | hc
      · exact hr1 c hc
      · exact hr2 c hc
  · rw [InitConfig_viperHome_of_exists env _ hex2, InitConfig_viperHome_of_exists env s hex]
    exact ReadInConfig_store_congr env _ _ _ hfs

/-- Witness for C5: the edited home file, read twice. -/
theorem InitConfig_keeps_existing_home_file_witness :
    fileutilExists (freshState editedHomeFs).world.fs
      (HomeConfigFile (searchEnv "/home/u" ("", none))) = true ∧
    (InitConfig (searchEnv "/home/u" ("", none)) (freshState editedHomeFs)).world.fs
      = editedHomeFs ∧
    (InitConfig (searchEnv "/home/u" ("", none)) (freshState editedHomeFs)).viperHome.GetString
      "postgres.user" = "alice" ∧
    (InitConfig (searchEnv "/home/u" ("", none))
      (InitConfig (searchEnv "/home/u" ("", none)) (freshState editedHomeFs))).viperHome.GetString
      "postgres.user" = "alice" :=
  ⟨by decide,
   (InitConfig_keeps_existing_home_file (searchEnv "/home/u" ("", none))
      (freshState editedHomeFs) (by decide)).1,
   (InitConfig_keeps_existing_home_file (searchEnv "/home/u" ("", none))
      (freshState editedHomeFs) (by decide)).2.2.1 0o600
      [("postgres.user", "alice"), ("cloud.domain", "astro.example.com")] (by decide) (by decide)
      "postgres.user" "alice" (by decide),
   by decide⟩

/-- The home store after `initHome`, when the home file was absent and the
directory and the file could be created: the file exists and the store reads
every registered non-empty default. -/
theorem initHome_creates_defaults (env : Env) (s : State)
    (habsent : fileutilExists s.world.fs (HomeConfigFile env) = false)
    (hdir : (osMkdirAll env (HomeConfigPath env) 0o770 s.world).1 = none)
    (hfile : (osCreate env (HomeConfigFile env)
      (osMkdirAll env (HomeConfigPath env) 0o770 s.world).2).1 = none) :
    fileutilExists (initHome env s).world.fs (HomeConfigFile env) = true ∧
    ∀ c ∈ CFGStrMap, c.Default ≠ "" → (initHome env s).viperHome.GetString c.Path = c.Default := by
  have hdefaults : ∀ c ∈ CFGStrMap, c.Default ≠ "" →
      (homeStore env).GetString c.Path = c.Default :=
    getString_homeDefaults _ (by rw [homeStore_eq]) (by rw [homeStore_eq])
  have hcf : (homeStore env).configFile = HomeConfigFile env := by rw [homeStore_eq]
  obtain ⟨m0, hm0⟩ := osCreate_ok_get env (HomeConfigFile env) _ hfile
  obtain ⟨m1, hm1⟩ := osChmod_keeps_file env (HomeConfigFile env) 0o600 _ m0 [] hm0
  rw [initHome_of_absent env s habsent, CreateConfig_of_created env _ _ _ _ hdir hfile]
  generalize (osChmod env (HomeConfigFile env) 0o600 (osCreate env (HomeConfigFile env)
    (osMkdirAll env (HomeConfigPath env) 0o770 s.world).2).2).2 = w3 at hm1 ⊢
  have herr := WriteConfigAs_fs_of_error env (homeStore env) (HomeConfigFile env) w3
  have hok := WriteConfigAs_ok_get env (homeStore env) (HomeConfigFile env) w3 m1 []
  unfold saveConfig
  rcases hw : Viper.WriteConfigAs env (homeStore env) (HomeConfigFile env) w3 with ⟨r, w4⟩
  rw [hw] at herr hok
  cases r with
  | some e =>
    have hfs : w4.fs = w3.fs := herr e rfl
    refine ⟨?_, hdefaults⟩
    show fileutilExists w4.fs (HomeConfigFile env) = true
    unfold fileutilExists
    rw [hfs, hm1]
    rfl
  | none =>
    have hget : assocGet (HomeConfigFile env) w4.fs
        = some (Node.file m1 (homeStore env).AllSettings) := hok rfl hm1
    simp only
    constructor
    · rw [readHome_fs]
      show fileutilExists w4.fs (HomeConfigFile env) = true
      unfold fileutilExists
      rw [hget]
      rfl
    · rw [readHome_viperHome]
      show ∀ c ∈ CFGStrMap, c.Default ≠ "" →
        ((homeStore env).ReadInConfig env w4).2.1.GetString c.Path = c.Default
      rcases ReadInConfig_store env (homeStore env) w4 with h | ⟨m, content, hfile2, h⟩
      · rw [h]
        exact hdefaults
      · rw [h]
        rw [hcf, hget] at hfile2
        have hcontent : content = homeSettings := by
          have := Option.some.inj hfile2
          rw [← homeStore_AllSettings env]
          exact ((Node.file.injEq _ _ _ _).mp this).2.symm
        exact getString_homeSettings _ hcontent

/-- C2, counterexample: the registry holds eight settings with a non-empty
default, not three. -/
theorem registry_nonempty_defaults_not_three :
    (CFGStrMap.filter (fun c => decide (c.Default ≠ ""))).map (fun c => c.Path)
      = ["cloud.api.protocol", "cloud.api.port", "postgres.user", "postgres.password",
         "postgres.host", "postgres.port", "docker.registry.user",
         "docker.registry.password"] ∧
    (CFGStrMap.filter (fun c => decide (c.Default ≠ ""))).length ≠ 3 := by
  refine ⟨by decide, by decide⟩

/-- C2, amended: the registry holds eight settings with a non-empty default,
and for each of them: after InitConfig with no home configuration file at the
start and with the directory and the file created without error, the home file
exists and the home store returns the registered default for the key. -/
theorem InitConfig_creates_home_defaults (env : Env) (s : State)
    (habsent : fileutilExists s.world.fs (HomeConfigFile env) = false)
    (hdir : (osMkdirAll env (HomeConfigPath env) 0o770 s.world).1 = none)
    (hfile : (osCreate env (HomeConfigFile env)
      (osMkdirAll env (HomeConfigPath env) 0o770 s.world).2).1 = none) :
    (CFGStrMap.filter (fun c => decide (c.Default ≠ ""))).length = 8 ∧
    fileutilExists (InitConfig env s).world.fs (HomeConfigFile env) = true ∧
    ∀ c ∈ CFGStrMap, c.Default ≠ "" →
      (InitConfig env s).viperHome.GetString c.Path = c.Default := by
  obtain ⟨h1, h2⟩ := initHome_creates_defaults env s habsent hdir hfile
  refine ⟨by decide, ?_, ?_⟩
  · unfold InitConfig
    rw [initProject_fs]
    exact h1
  · unfold InitConfig
    rw [initProject_viperHome]
    exact h2

/-- Witness for C2 (amended): a first run in an empty file system. -/
theorem InitConfig_creates_home_defaults_witness :
    fileutilExists (InitConfig (searchEnv "/home/u" ("", none)) (freshState [])).world.fs
      "/home/u/.astro/config.yaml" = true ∧
    (InitConfig (searchEnv "/home/u" ("", none)) (freshState [])).viperHome.GetString
      "postgres.port" = "5432" :=
  ⟨(InitConfig_creates_home_defaults (searchEnv "/home/u" ("", none)) (freshState [])
      (by decide) (by decide) (by decide)).2.1,
   (InitConfig_creates_home_defaults (searchEnv "/home/u" ("", none)) (freshState [])
      (by decide) (by decide) (by decide)).2.2 CFG.PostgresPort (by decide) (by decide)⟩

/-! ## The deployment-user operations -/

theorem contains_self (m : String) : Contains m m :=
  ⟨"", "", by simp⟩

theorem contains_line (out msg : String) : Contains (out ++ msg ++ "\n") msg :=
  ⟨out, "\n", rfl⟩

/-- C3: for each of Add, DeleteUser and UpdateUser, when the response to its
mutation carries an error list whose first error has message `m`, under any
HTTP status (200 and 400 among them), the operation returns an error whose
message is `m`, hence contains `m` verbatim, and leaves the output sink as it
was. -/
theorem user_operations_propagate_server_error (deploymentID email role : String)
    (transport : Request → Response) (out : String) :
    (∀ e rest, (transport (addRequest deploymentID email role)).errors = e :: rest →
      ∃ err, Add deploymentID email role (houstonDo transport) out = (some err, out) ∧
        Contains err e.message) ∧
    (∀ e rest, (transport (removeRequest deploymentID email)).errors = e :: rest →
      ∃ err, DeleteUser deploymentID email (houstonDo transport) out = (some err, out) ∧
        Contains err e.message) ∧
    (∀ e rest, (transport (updateRequest deploymentID email role)).errors = e :: rest →
      ∃ err, UpdateUser deploymentID email role (houstonDo transport) out = (some err, out) ∧
        Contains err e.message) := by
  refine ⟨?_, ?_, ?_⟩
  · intro e rest h
    refine ⟨e.message, ?_, contains_self _⟩
    simp only [Add, houstonDo, h]
  · intro e rest h
    refine ⟨e.message, ?_, contains_self _⟩
    simp only [DeleteUser, houstonDo, h]
  · intro e rest h
    refine ⟨e.message, ?_, contains_self _⟩
    simp only [UpdateUser, houstonDo, h]

/-- Witness for C3: the refusals of the tests, the duplicate binding under
status 200 and the missing binding under status 400. -/
theorem user_operations_propagate_server_error_witness :
    (∃ err, Add "ckggzqj5f4157qtc9lescmehm" "somebody@astronomer.com" "DEPLOYMENT_ADMIN"
        (houstonDo (constTransport
          (errorResponse 200 "A duplicate role binding already exists"))) "" = (some err, "") ∧
      Contains err "A duplicate role binding already exists") ∧
    (∃ err, DeleteUser "ckggzqj5f4157qtc9lescmehm" "somebody@astronomer.com"
        (houstonDo (constTransport
          (errorResponse 400 "The role binding does not exist for this user"))) ""
        = (some err, "") ∧
      Contains err "The role binding does not exist for this user") :=
  ⟨(user_operations_propagate_server_error "ckggzqj5f4157qtc9lescmehm"
      "somebody@astronomer.com" "DEPLOYMENT_ADMIN"
      (constTransport (errorResponse 200 "A duplicate role binding already exists")) "").1
      { message := "A duplicate role binding already exists", code := some "BAD_USER_INPUT" }
      [] rfl,
   (user_operations_propagate_server_error "ckggzqj5f4157qtc9lescmehm"
      "somebody@astronomer.com" "DEPLOYMENT_ADMIN"
      (constTransport (errorResponse 400 "The role binding does not exist for this user"))
      "").2.1
      { message := "The role binding does not exist for this user",
        code := some "BAD_USER_INPUT" }
      [] rfl⟩

/-- C4: for each of Add, DeleteUser and UpdateUser, when the response to its
mutation carries no error, the operation returns no error and appends to the
output sink a line that contains the confirmation text; for DeleteUser the
role in it is the one of the payload returned by the server. -/
theorem user_operations_confirm_success (deploymentID email role : String)
    (transport : Request → Response) (out : String) :
    ((transport (addRequest deploymentID email role)).errors = [] →
      (Add deploymentID email role (houstonDo transport) out).1 = none ∧
      Contains (Add deploymentID email role (houstonDo transport) out).2
        ("Successfully added " ++ email ++ " as a " ++ role)) ∧
    ((transport (removeRequest deploymentID email)).errors = [] →
      (DeleteUser deploymentID email (houstonDo transport) out).1 = none ∧
      Contains (DeleteUser deploymentID email (houstonDo transport) out).2
        ("Successfully removed the " ++
          (transport (removeRequest deploymentID email)).data.role ++
          " role for " ++ email ++ " from deployment " ++ deploymentID)) ∧
    ((transport (updateRequest deploymentID email role)).errors = [] →
      (UpdateUser deploymentID email role (houstonDo transport) out).1 = none ∧
      Contains (UpdateUser deploymentID email role (houstonDo transport) out).2
        ("Successfully updated " ++ email ++ " to a " ++ role)) := by
  refine ⟨?_, ?_, ?_⟩
  · intro h
    simp only [Add, houstonDo, h]
    exact ⟨trivial, contains_line _ _⟩
  · intro h
    simp only [DeleteUser, houstonDo, h]
    exact ⟨trivial, contains_line _ _⟩
  · intro h
    simp only [UpdateUser, houstonDo, h]
    exact ⟨trivial, contains_line _ _⟩

/-- Witness for C4: the accepted mutations of the tests. -/
theorem user_operations_confirm_success_witness :
    Contains
      (Add "ckggzqj5f4157qtc9lescmehm" "somebody@astronomer.com" "DEPLOYMENT_ADMIN"
        (houstonDo (constTransport (okResponse "DEPLOYMENT_ADMIN"))) "").2
      "Successfully added somebody@astronomer.com as a DEPLOYMENT_ADMIN" ∧
    Contains
      (DeleteUser "ckggzqj5f4157qtc9lescmehm" "somebody@astronomer.com"
        (houstonDo (constTransport (okResponse "DEPLOYMENT_ADMIN"))) "").2
      "Successfully removed the DEPLOYMENT_ADMIN role for somebody@astronomer.com from deployment ckggzqj5f4157qtc9lescmehm" ∧
    Contains
      (UpdateUser "ckggzqj5f4157qtc9lescmehm" "somebody@astronomer.com" "DEPLOYMENT_EDITOR"
        (houstonDo (constTransport (okResponse "DEPLOYMENT_EDITOR"))) "").2
      "Successfully updated somebody@astronomer.com to a DEPLOYMENT_EDITOR" :=
  ⟨((user_operations_confirm_success "ckggzqj5f4157qtc9lescmehm" "somebody@astronomer.com"
      "DEPLOYMENT_ADMIN" (constTransport (okResponse "DEPLOYMENT_ADMIN")) "").1 rfl).2,
   ((user_operations_confirm_success "ckggzqj5f4157qtc9lescmehm" "somebody@astronomer.com"
      "DEPLOYMENT_ADMIN" (constTransport (okResponse "DEPLOYMENT_ADMIN")) "").2.1 rfl).2,
   ((user_operations_confirm_success "ckggzqj5f4157qtc9lescmehm" "somebody@astronomer.com"
      "DEPLOYMENT_EDITOR" (constTransport (okResponse "DEPLOYMENT_EDITOR")) "").2.2 rfl).2⟩

end AstroCli
